import Mathlib

/-!
Verification of the cooperative-evolution LLM game-theory simulator.

Shallow embedding of the repository's core logic:
* `game_manager.py`   — payoff matrices, move normalization, Pareto test
* `scenarios_manager.py` — the built-in scenario catalog (names, options,
  move mappings; the prose descriptions only feed prompt text and are not
  inspected by any verified property)
* `agent_class.py`    — move extraction, LLM-response post-processing,
  memory updates, per-agent statistics
* `simulation_engine.py` — game-type selection, dry-run pairing loop,
  engine statistics and the gossip phase

Randomness is modelled by explicit parameters: `random.random()` draws
become rational-number arguments, `random.choice` / `random.choices`
become index or stream arguments.  Provider (OpenAI) calls are modelled
by their observable result: either a returned text or an error.
-/

namespace CoopEvo

/-! ### Python string primitives -/

/-- Contiguous-sublist test on character lists. -/
def isSubstr (needle : List Char) : List Char → Bool
  | [] => needle.isEmpty
  | c :: t => needle.isPrefixOf (c :: t) || isSubstr needle t

/-- Python's substring test `needle in hay` (both already strings). -/
def strContains (hay needle : String) : Bool :=
  isSubstr needle.toList hay.toList

/-- Python `str.strip()` on a character list: drop whitespace at both ends. -/
def pyStripList (l : List Char) : List Char :=
  ((l.dropWhile Char.isWhitespace).reverse.dropWhile Char.isWhitespace).reverse

/-- Python `str.strip()`. -/
def pyStrip (s : String) : String :=
  String.mk (pyStripList s.toList)

/-- Python `str.lower()` (character-wise, as for the ASCII texts involved). -/
def pyLower (s : String) : String :=
  String.mk (s.toList.map Char.toLower)

/-- Python slice `s[:n]` (by code points). -/
def pyTake (s : String) (n : Nat) : String :=
  String.mk (s.toList.take n)

/-- Python `len(s)` (code points). -/
def pyLen (s : String) : Nat :=
  s.toList.length

/-! ### `game_manager.py` -/

/-- The closed set of game types (keys of `GameManager.payoff_matrices`). -/
def gameTypes : List String :=
  ["prisoners_dilemma", "stag_hunt", "hawk_dove", "coordination"]

/-- `GameManager.valid_moves`. -/
def valid_moves (game_type : String) : List String :=
  if game_type = "prisoners_dilemma" then ["cooperate", "defect"]
  else if game_type = "stag_hunt" then ["stag", "hare"]
  else if game_type = "hawk_dove" then ["hawk", "dove"]
  else if game_type = "coordination" then ["option_a", "option_b"]
  else []

/-- `GameManager.payoff_matrices`: ordered association lists mirroring the
Python dicts. -/
def payoff_matrices (game_type : String) : List ((String × String) × (Int × Int)) :=
  if game_type = "prisoners_dilemma" then
    [(("cooperate", "cooperate"), (3, 3)),
     (("cooperate", "defect"), (0, 5)),
     (("defect", "cooperate"), (5, 0)),
     (("defect", "defect"), (1, 1))]
  else if game_type = "stag_hunt" then
    [(("stag", "stag"), (4, 4)),
     (("stag", "hare"), (0, 3)),
     (("hare", "stag"), (3, 0)),
     (("hare", "hare"), (2, 2))]
  else if game_type = "hawk_dove" then
    [(("hawk", "hawk"), (-1, -1)),
     (("hawk", "dove"), (3, 1)),
     (("dove", "hawk"), (1, 3)),
     (("dove", "dove"), (2, 2))]
  else if game_type = "coordination" then
    [(("option_a", "option_a"), (3, 3)),
     (("option_a", "option_b"), (0, 0)),
     (("option_b", "option_a"), (0, 0)),
     (("option_b", "option_b"), (3, 3))]
  else []

/-- `GameManager._map_to_valid_move`: keyword remapping of a non-canonical
move, falling back to the game type's first valid move. -/
def _map_to_valid_move (move : String) (game_type : String) : String :=
  let move_lower := pyLower move
  if game_type = "prisoners_dilemma" then
    if ["trust", "collaborate", "share"].any (fun w => strContains move_lower w) then "cooperate"
    else if ["betray", "compete", "take"].any (fun w => strContains move_lower w) then "defect"
    else (valid_moves game_type).headD ""
  else if game_type = "stag_hunt" then
    if ["team", "together", "big"].any (fun w => strContains move_lower w) then "stag"
    else if ["solo", "safe", "small"].any (fun w => strContains move_lower w) then "hare"
    else (valid_moves game_type).headD ""
  else if game_type = "hawk_dove" then
    if ["fight", "aggressive", "attack"].any (fun w => strContains move_lower w) then "hawk"
    else if ["peace", "yield", "share"].any (fun w => strContains move_lower w) then "dove"
    else (valid_moves game_type).headD ""
  else if game_type = "coordination" then
    if strContains move_lower "a" || strContains move_lower "first" then "option_a"
    else if strContains move_lower "b" || strContains move_lower "second" then "option_b"
    else (valid_moves game_type).headD ""
  else (valid_moves game_type).headD ""

/-- `GameManager.calculate_payoffs`.  The `ValueError` raised for an unknown
game type is modelled as `none`; the defensive `(0, 0)` fallback for a
missing table entry is kept as in the source. -/
def calculate_payoffs (game_type move1 move2 : String) : Option (Int × Int) :=
  if gameTypes.contains game_type then
    let move1 := pyStrip (pyLower move1)
    let move2 := pyStrip (pyLower move2)
    let move1 := if (valid_moves game_type).contains move1 then move1
                 else _map_to_valid_move move1 game_type
    let move2 := if (valid_moves game_type).contains move2 then move2
                 else _map_to_valid_move move2 game_type
    some (((payoff_matrices game_type).lookup (move1, move2)).getD (0, 0))
  else none

/-- `calculate_payoffs` with the unreachable-unknown-game path defaulted,
as used inside loops that only ever pass known game types. -/
def calculatePayoffsD (game_type move1 move2 : String) : Int × Int :=
  (calculate_payoffs game_type move1 move2).getD (0, 0)

/-- `GameManager.is_pareto_optimal`: an outcome fails the test iff some
other move pair is strictly better for both players. -/
def is_pareto_optimal (game_type move1 move2 : String) : Bool :=
  let current := calculatePayoffsD game_type move1 move2
  (valid_moves game_type).all fun m1 =>
    (valid_moves game_type).all fun m2 =>
      if (m1, m2) = (move1, move2) then true
      else
        let other := calculatePayoffsD game_type m1 m2
        !(other.1 > current.1 && other.2 > current.2)

/-- Pareto optimality as the specification words it: no other outcome
weakly dominates this one in both coordinates with at least one strict
improvement. -/
def specParetoOptimal (game_type move1 move2 : String) : Bool :=
  let current := calculatePayoffsD game_type move1 move2
  (valid_moves game_type).all fun m1 =>
    (valid_moves game_type).all fun m2 =>
      !(decide ((m1, m2) ≠ (move1, move2)) &&
        (let other := calculatePayoffsD game_type m1 m2
         decide (other.1 ≥ current.1) && decide (other.2 ≥ current.2) &&
         (decide (other.1 > current.1) || decide (other.2 > current.2))))

/-! ### `agent_class.py`: LLM-response post-processing

`_call_llm` extracts the first `<thinking>...</thinking>` segment with
`re.search(r'<thinking>(.*?)</thinking>', ..., re.DOTALL)` and removes all
such segments with `re.sub`.  Both are modelled on character lists: the
leftmost match of the pattern is the first occurrence of the opening tag
followed by the nearest closing tag (non-greedy body), and `re.sub`
removes the non-overlapping matches left to right. -/

def openTag : List Char := "<thinking>".toList

def closeTag : List Char := "</thinking>".toList

/-- Split at the first occurrence of `pat`: `some (before, after)` with
`before ++ pat ++ after = s` and `before` shortest. -/
def splitAtInfix (pat : List Char) : List Char → Option (List Char × List Char)
  | [] => if pat.isPrefixOf ([] : List Char) then some ([], []) else none
  | c :: cs =>
    if pat.isPrefixOf (c :: cs) then some ([], (c :: cs).drop pat.length)
    else (splitAtInfix pat cs).map fun p => (c :: p.1, p.2)

/-- The leftmost `<thinking>(.*?)</thinking>` match: text before the match,
the captured group, and the text after the match. -/
def findThinkSeg (s : List Char) : Option (List Char × List Char × List Char) :=
  match splitAtInfix openTag s with
  | none => none
  | some (pre, rest) =>
    match splitAtInfix closeTag rest with
    | none => none
    | some (content, post) => some (pre, content, post)

/-- Fueled removal of all non-overlapping thinking segments, left to
right (the fuel only serves Lean's termination checker; one unit is spent
per removed segment and a segment is at least 21 characters long). -/
def removeThinkSegsF : Nat → List Char → List Char
  | 0, s => s
  | fuel + 1, s =>
    match findThinkSeg s with
    | none => s
    | some (pre, _, post) => pre ++ removeThinkSegsF fuel post

/-- `re.sub(r'<thinking>.*?</thinking>', '', s, flags=re.DOTALL)`. -/
def removeThinkSegs (s : List Char) : List Char :=
  removeThinkSegsF s.length s

/-- The response-parsing block of `Agent._call_llm`: extract the first
thinking segment, delete all segments from the visible text, strip it, and
fall back to the (stripped) thinking content when nothing visible is
left. -/
def processLLMResponse (full_response : String) : Option String × String :=
  let sl := full_response.toList
  let thinking := (findThinkSeg sl).map fun t => String.mk t.2.1
  let clean_response := pyStrip (String.mk (removeThinkSegs sl))
  match thinking with
  | some t => if clean_response = "" then (some t, pyStrip t) else (some t, clean_response)
  | none => (none, clean_response)

/-- The observable outcome of one OpenAI chat-completion call. -/
inductive ProviderResult where
  | ok (text : String)
  | err
deriving DecidableEq

/-- `Agent._call_llm`, as a function of the provider outcome; returns
`(thinking, response)`.  The `api_calls` increment is accounted for in the
agent-state operations below. -/
def _call_llm (dry_run : Bool) (call_type : String) (provider : ProviderResult) :
    Option String × String :=
  if dry_run then
    if call_type = "move_decision" then (none, "cooperate")
    else (none, "[Dry run response for " ++ call_type ++ "]")
  else
    match provider with
    | .ok full_response => processLLMResponse full_response
    | .err =>
      if call_type = "move_decision" then (none, "cooperate")
      else (none, "")

/-! ### `agent_class.py`: move extraction -/

/-- The scenario `move_mapping` scan: first option text (lower-cased)
found as a substring of the lower-cased response wins. -/
def mappingFirstMatch : List (String × String) → String → Option String
  | [], _ => none
  | (option_text, canonical_move) :: rest, response_lower =>
    if strContains response_lower (pyLower option_text) then some canonical_move
    else mappingFirstMatch rest response_lower

/-- The game-type-specific keyword fallback inside `_extract_move`
(`none` when neither keyword set matches, falling through to the safe
default). -/
def keywordMove (game_type response_lower : String) : Option String :=
  if game_type = "prisoners_dilemma" then
    if ["cooperate", "collaborate", "trust", "share"].any
        (fun w => strContains response_lower w) then some "cooperate"
    else if ["defect", "betray", "compete", "take"].any
        (fun w => strContains response_lower w) then some "defect"
    else none
  else if game_type = "stag_hunt" then
    if ["stag", "collaborate", "team", "together", "big"].any
        (fun w => strContains response_lower w) then some "stag"
    else if ["hare", "solo", "individual", "safe", "small"].any
        (fun w => strContains response_lower w) then some "hare"
    else none
  else if game_type = "hawk_dove" then
    if ["hawk", "aggressive", "fight", "attack"].any
        (fun w => strContains response_lower w) then some "hawk"
    else if ["dove", "peaceful", "yield", "peace"].any
        (fun w => strContains response_lower w) then some "dove"
    else none
  else if game_type = "coordination" then
    if ["option a", "a", "first"].any
        (fun w => strContains response_lower w) then some "option_a"
    else if ["option b", "b", "second"].any
        (fun w => strContains response_lower w) then some "option_b"
    else none
  else none

/-- The `valid_defaults` table of `_extract_move`, with its `'cooperate'`
fallback for a game type outside the table. -/
def valid_defaults (game_type : String) : String :=
  if game_type = "prisoners_dilemma" then "cooperate"
  else if game_type = "stag_hunt" then "stag"
  else if game_type = "hawk_dove" then "dove"
  else if game_type = "coordination" then "option_a"
  else "cooperate"

/-- `Agent._extract_move`: scenario mapping first, then keywords, then the
safe canonical default.  A missing or empty `move_mapping` (both falsy in
Python) skips the mapping scan. -/
def _extract_move (response game_type : String)
    (move_mapping : Option (List (String × String))) : String :=
  let response_lower := pyStrip (pyLower response)
  match mappingFirstMatch (move_mapping.getD []) response_lower with
  | some canonical_move => canonical_move
  | none =>
    match keywordMove game_type response_lower with
    | some move => move
    | none => valid_defaults game_type

/-! ### `agent_class.py`: agent state and its operations -/

/-- The `Agent.stats` dictionary. `strategies_used` is a `defaultdict(int)`,
modelled as an association list of the keys written so far. -/
structure AgentStats where
  total_games : Nat
  total_payoff : Int
  strategies_used : List (String × Nat)
  api_calls : Nat
deriving DecidableEq

/-- `Agent.__init__` statistics. -/
def initStats : AgentStats :=
  { total_games := 0, total_payoff := 0, strategies_used := [], api_calls := 0 }

/-- Dictionary read `d.get(k)` on an association list (keys are unique,
matching Python `dict` semantics). -/
def alookup {α : Type} : List (String × α) → String → Option α
  | [], _ => none
  | (k', v) :: rest, k => if k' = k then some v else alookup rest k

/-- `defaultdict` increment `d[k] += 1`. -/
def bumpCount : List (String × Nat) → String → List (String × Nat)
  | [], k => [(k, 1)]
  | (k', n) :: rest, k =>
    if k' = k then (k', n + 1) :: rest else (k', n) :: bumpCount rest k

/-- Read a `defaultdict(int)` entry. -/
def countGet (l : List (String × Nat)) (k : String) : Nat :=
  (alookup l k).getD 0

/-- Dictionary write `d[k] = v` on an association list. -/
def setMem : List (String × String) → String → String → List (String × String)
  | [], k, v => [(k, v)]
  | (k', v') :: rest, k, v =>
    if k' = k then (k, v) :: rest else (k', v') :: setMem rest k v

/-- The mutable state of one `Agent`: its per-opponent memories, its
memory cap and its statistics. -/
structure AgentState where
  memories : List (String × String)
  memory_limit : Nat
  stats : AgentStats
deriving DecidableEq

/-- A fresh agent (`Agent.__init__`). -/
def initAgent (memory_limit : Nat) : AgentState :=
  { memories := [], memory_limit := memory_limit, stats := initStats }

/-- `self.stats['api_calls'] += 1`, performed at the top of `_call_llm`. -/
def incApi (st : AgentStats) : AgentStats :=
  { st with api_calls := st.api_calls + 1 }

/-- `Agent.communicate` state effect: one `_call_llm`. -/
def communicate_fn (a : AgentState) : AgentState :=
  { a with stats := incApi a.stats }

/-- `Agent.make_move` state effect, given the visible `_call_llm`
response: `api_calls`, `total_games` and the extracted move's
`strategies_used` counter each grow by one; returns the move. -/
def make_move_fn (a : AgentState) (response game_type : String)
    (move_mapping : Option (List (String × String))) : String × AgentState :=
  let stats := incApi a.stats
  let move := _extract_move response game_type move_mapping
  (move,
   { a with stats :=
      { stats with
        total_games := stats.total_games + 1,
        strategies_used := bumpCount stats.strategies_used move } })

/-- `Agent.update_memory_after_pairing` state effect, given the visible
`_call_llm` response: truncate to the memory cap, overwrite the memory. -/
def update_memory_fn (a : AgentState) (opponent_id response : String) : AgentState :=
  let stats := incApi a.stats
  let response := if pyLen response > a.memory_limit
                  then pyTake response a.memory_limit else response
  { a with stats := stats, memories := setMem a.memories opponent_id response }

/-- `Agent.generate_gossip`: returns `(None, ...)` without touching any
counter when no memory about `about_agent` exists; otherwise one
`_call_llm` whose visible response is the gossip. -/
def generate_gossip_fn (a : AgentState) (about_agent response : String) :
    Option String × AgentState :=
  if (alookup a.memories about_agent).isNone then (none, a)
  else (some response, { a with stats := incApi a.stats })

/-- `Agent.receive_gossip` state effect, given the visible `_call_llm`
response: memory is rewritten (truncated to the cap) only when the
response is non-trivial (non-empty and longer than 10 characters). -/
def receive_gossip_fn (a : AgentState) (about_agent response : String) : AgentState :=
  let stats := incApi a.stats
  if response ≠ "" ∧ pyLen response > 10 then
    let response := if pyLen response > a.memory_limit
                    then pyTake response a.memory_limit else response
    { a with stats := stats, memories := setMem a.memories about_agent response }
  else { a with stats := stats }

/-- The operations that touch one agent's state during a run: its five
decision operations (with the post-`_call_llm` visible response as
argument) and the engine's payoff accumulation
(`agent.stats['total_payoff'] += payoff`). -/
inductive AgentOp where
  | communicate
  | make_move (response game_type : String) (move_mapping : Option (List (String × String)))
  | update_memory (opponent_id response : String)
  | generate_gossip (about_agent response : String)
  | receive_gossip (about_agent response : String)
  | add_payoff (payoff : Int)
deriving DecidableEq

/-- Apply one operation to an agent's state. -/
def applyAgentOp (a : AgentState) : AgentOp → AgentState
  | .communicate => communicate_fn a
  | .make_move response game_type mm => (make_move_fn a response game_type mm).2
  | .update_memory opponent_id response => update_memory_fn a opponent_id response
  | .generate_gossip about_agent response => (generate_gossip_fn a about_agent response).2
  | .receive_gossip about_agent response => receive_gossip_fn a about_agent response
  | .add_payoff payoff =>
    { a with stats := { a.stats with total_payoff := a.stats.total_payoff + payoff } }

/-- Apply a sequence of operations. -/
def applyAgentOps (a : AgentState) (ops : List AgentOp) : AgentState :=
  ops.foldl applyAgentOp a

/-! ### `scenarios_manager.py`

The built-in catalog, keeping the fields the engine logic reads (`name`,
`options`, `move_mapping`); the prose `description` strings only feed
prompt text. -/

/-- One scenario of `ScenarioManager.scenarios`. -/
structure ScenarioData where
  name : String
  options : List String
  move_mapping : List (String × String)
deriving DecidableEq

/-- `ScenarioManager.scenarios`. -/
def scenariosCatalog (game_type : String) : List ScenarioData :=
  if game_type = "prisoners_dilemma" then
    [⟨"Price Competition", ["maintain prices", "cut prices"],
      [("maintain prices", "cooperate"), ("cut prices", "defect")]⟩,
     ⟨"R&D Information Sharing", ["share research", "keep secret"],
      [("share research", "cooperate"), ("keep secret", "defect")]⟩,
     ⟨"Supplier Contract Negotiation", ["fair terms", "exclusive terms"],
      [("fair terms", "cooperate"), ("exclusive terms", "defect")]⟩]
  else if game_type = "stag_hunt" then
    [⟨"Joint Venture Investment", ["joint venture", "independent project"],
      [("joint venture", "stag"), ("independent project", "hare")]⟩,
     ⟨"Industry Standard Development", ["develop standard together", "proprietary solution"],
      [("develop standard together", "stag"), ("proprietary solution", "hare")]⟩,
     ⟨"Market Expansion Strategy", ["international partnership", "domestic expansion"],
      [("international partnership", "stag"), ("domestic expansion", "hare")]⟩]
  else if game_type = "hawk_dove" then
    [⟨"Patent Dispute", ["aggressive litigation", "seek agreement"],
      [("aggressive litigation", "hawk"), ("seek agreement", "dove")]⟩,
     ⟨"Market Territory Conflict", ["aggressive expansion", "seek alternatives"],
      [("aggressive expansion", "hawk"), ("seek alternatives", "dove")]⟩,
     ⟨"Talent Acquisition Battle", ["aggressive offer", "reasonable offer"],
      [("aggressive offer", "hawk"), ("reasonable offer", "dove")]⟩]
  else if game_type = "coordination" then
    [⟨"Technology Platform Choice", ["Platform A", "Platform B"],
      [("Platform A", "option_a"), ("Platform B", "option_b")]⟩,
     ⟨"Meeting Scheduling System", ["System Alpha", "System Beta"],
      [("System Alpha", "option_a"), ("System Beta", "option_b")]⟩,
     ⟨"Trade Show Participation", ["Spring Expo", "Fall Summit"],
      [("Spring Expo", "option_a"), ("Fall Summit", "option_b")]⟩]
  else []

/-! ### `simulation_engine.py` -/

/-- The experiment configuration consumed by `SimulationEngine`
(`game_proportions` keeps the dictionary's insertion order). -/
structure ExperimentConfig where
  avg_rounds : Nat
  rounds_fixed : Bool
  total_pairings : Nat
  allow_gossip : Bool
  memory_limit : Nat
  max_communication_rounds : Nat
  game_proportions : List (String × ℚ)
  game_varies_across_pairings : Bool
  allow_thinking : Bool

/-- Running totals, as built by `itertools.accumulate` inside
`random.choices`. -/
def cumSumFrom (acc : ℚ) : List ℚ → List ℚ
  | [] => []
  | w :: ws => (acc + w) :: cumSumFrom (acc + w) ws

/-- Cumulative weights of a weight list. -/
def cumSum (ws : List ℚ) : List ℚ :=
  cumSumFrom 0 ws

/-- `SimulationEngine._select_game_type`, i.e.
`random.choices(games, weights=weights)[0]` where `r` stands for the
`random.random()` draw: the chosen index is
`bisect.bisect(cum_weights, r * total, 0, len(games) - 1)`, the number of
cumulative weights (among the first `len - 1`) that are `≤ r * total`. -/
def _select_game_type (game_proportions : List (String × ℚ)) (r : ℚ) : String :=
  let games := game_proportions.map Prod.fst
  let weights := game_proportions.map Prod.snd
  let cum := cumSum weights
  let total := cum.getLastD 0
  let hi := games.length - 1
  let idx := ((cum.take hi).filter fun c => decide (c ≤ r * total)).length
  games.getD idx ""

/-- Round-count determination at the top of `_run_pairing`: the fixed
configured count, or a Poisson draw floored at 1. -/
def numRoundsFor (cfg : ExperimentConfig) (poisson_draw : Nat) : Nat :=
  if cfg.rounds_fixed then cfg.avg_rounds else max 1 poisson_draw

/-- The `games_for_rounds` list of `_run_pairing`: with
`game_varies_across_pairings` one draw is replicated over all rounds of
the pairing, otherwise one independent draw is made per round (`rs` is
the stream of `random.random()` values consumed by the draws). -/
def gamesForRounds (cfg : ExperimentConfig) (num_rounds : Nat) (rs : Nat → ℚ) : List String :=
  if cfg.game_varies_across_pairings then
    List.replicate num_rounds (_select_game_type cfg.game_proportions (rs 0))
  else
    (List.range num_rounds).map fun i => _select_game_type cfg.game_proportions (rs i)

/-- One entry of `pairing_history` (moves and payoffs keyed positionally
for the two fixed participants; exchanged messages do not feed any
verified quantity). -/
structure RoundRecord where
  round : Nat
  game_type : String
  scenario : String
  move1 : String
  move2 : String
  payoff1 : Int
  payoff2 : Int
deriving DecidableEq

/-- The `cooperative_moves` table of `_update_stats`, with its
`['cooperate']` default. -/
def cooperative_moves (game_type : String) : List String :=
  if game_type = "prisoners_dilemma" then ["cooperate"]
  else if game_type = "stag_hunt" then ["stag"]
  else if game_type = "hawk_dove" then ["dove"]
  else if game_type = "coordination" then ["option_a", "option_b"]
  else ["cooperate"]

/-- The run-wide counters of `SimulationEngine.stats` that the final
result is computed from (the per-game move-pair table `moves_by_game` is
a pure log aggregate no verified property reads). -/
structure EngineStats where
  total_rounds : Nat
  cooperation_count : Nat
  defection_count : Nat
  coop_ewan_count : Nat
  defection_ewan_count : Nat
deriving DecidableEq

/-- `SimulationEngine.__init__` counters. -/
def initEngineStats : EngineStats :=
  { total_rounds := 0, cooperation_count := 0, defection_count := 0,
    coop_ewan_count := 0, defection_ewan_count := 0 }

/-- `SimulationEngine._update_stats`. -/
def _update_stats (st : EngineStats) (game_type move1 move2 : String) : EngineStats :=
  let coop_set := cooperative_moves game_type
  let step := fun (st : EngineStats) (move : String) =>
    if coop_set.contains (pyLower move) then
      { st with cooperation_count := st.cooperation_count + 1 }
    else { st with defection_count := st.defection_count + 1 }
  let st := step (step st move1) move2
  if game_type = "coordination" then
    if pyLower move1 = pyLower move2 then
      { st with coop_ewan_count := st.coop_ewan_count + 2 }
    else { st with defection_ewan_count := st.defection_ewan_count + 2 }
  else
    let estep := fun (st : EngineStats) (move : String) =>
      if coop_set.contains (pyLower move) then
        { st with coop_ewan_count := st.coop_ewan_count + 1 }
      else { st with defection_ewan_count := st.defection_ewan_count + 1 }
    estep (estep st move1) move2

/-- The visible `_call_llm` response of a dry-run move decision (the
provider is never consulted in dry-run mode, so the placeholder outcome
is irrelevant). -/
def dryMoveResponse : String :=
  (_call_llm true "move_decision" .err).2

/-- One round of `_run_pairing` in dry-run mode: both agents' move
decisions get the fixed dry-run response, so both moves are
`_extract_move` of that text against the round's scenario, and the payoff
pair follows from `calculate_payoffs`.  `scenario_idx` is the
`random.choice` index into the catalog for this game type. -/
def dryRound (round_num : Nat) (game_type : String) (scenario_idx : Nat) : RoundRecord :=
  let scen := (scenariosCatalog game_type).getD scenario_idx ⟨"", [], []⟩
  let move1 := _extract_move dryMoveResponse game_type (some scen.move_mapping)
  let move2 := _extract_move dryMoveResponse game_type (some scen.move_mapping)
  let payoffs := calculatePayoffsD game_type move1 move2
  ⟨round_num + 1, game_type, scen.name, move1, move2, payoffs.1, payoffs.2⟩

/-- `_run_pairing` in dry-run mode, reduced to the quantities the
aggregate result is computed from: the ordered round records. -/
def dryRunPairing (cfg : ExperimentConfig) (poisson_draw : Nat) (rs : Nat → ℚ)
    (scenario_idx : Nat → Nat) : List RoundRecord :=
  let num_rounds := numRoundsFor cfg poisson_draw
  let games := gamesForRounds cfg num_rounds rs
  (List.range num_rounds).map fun i => dryRound i (games.getD i "") (scenario_idx i)

/-- Per-round engine bookkeeping inside the `_run_pairing` loop:
`_update_stats` followed by `self.stats['total_rounds'] += 1`. -/
def engineFoldRound (st : EngineStats) (r : RoundRecord) : EngineStats :=
  let st := _update_stats st r.game_type r.move1 r.move2
  { st with total_rounds := st.total_rounds + 1 }

/-- The aggregate record returned by `SimulationEngine.run` (the fields
the claims inspect). -/
structure RunResult where
  total_pairings : Nat
  total_rounds : Nat
  cooperation_rate : ℚ
  coop_ewan : ℚ
  history : List (List RoundRecord)

/-- `SimulationEngine.run` in dry-run mode: all pairings in order, the
folded counters, and the two cooperation metrics (each `0` when its
denominator is `0`).  `poisson`, `rs` and `scenario_idx` supply the random
draws per pairing. -/
def dryRun (cfg : ExperimentConfig) (poisson : Nat → Nat) (rs : Nat → Nat → ℚ)
    (scenario_idx : Nat → Nat → Nat) : RunResult :=
  let history := (List.range cfg.total_pairings).map fun p =>
    dryRunPairing cfg (poisson p) (rs p) (scenario_idx p)
  let stats := history.foldl (fun st rounds => rounds.foldl engineFoldRound st) initEngineStats
  let total_moves := stats.cooperation_count + stats.defection_count
  let cooperation_rate : ℚ :=
    if total_moves > 0 then (stats.cooperation_count : ℚ) / (total_moves : ℚ) else 0
  let total_ewan := stats.coop_ewan_count + stats.defection_ewan_count
  let coop_ewan : ℚ :=
    if total_ewan > 0 then (stats.coop_ewan_count : ℚ) / (total_ewan : ℚ) else 0
  { total_pairings := cfg.total_pairings, total_rounds := stats.total_rounds,
    cooperation_rate := cooperation_rate, coop_ewan := coop_ewan, history := history }

/-! ### `simulation_engine.py`: the gossip phase -/

/-- One `data_logger.log_gossip` row. -/
structure GossipEvent where
  sender : String
  receiver : String
  about : String
  text : String
deriving DecidableEq

/-- Point update of the agent store (agent id → agent state). -/
def updateStore (store : String → AgentState) (id : String) (st : AgentState) :
    String → AgentState :=
  fun x => if x = id then st else store x

/-- One branch of `_handle_gossip` (`agent1 gossips` / `agent2 gossips`):
with a non-empty candidate list and a successful coin flip, a target is
chosen, the source generates gossip about its former opponent, and a
non-empty gossip text is delivered to the target's `receive_gossip`.
`gen_resp` and `recv_resp` are the visible provider responses of the two
potential calls. -/
def gossipBranch (others : List String) (src opp : String) (coin : Bool) (pick : Nat)
    (gen_resp recv_resp : String) (store : String → AgentState) :
    (String → AgentState) × List GossipEvent :=
  if others ≠ [] ∧ coin = true then
    let target := others.getD (pick % others.length) ""
    let genRes := generate_gossip_fn (store src) opp gen_resp
    let store := updateStore store src genRes.2
    match genRes.1 with
    | some g =>
      if g ≠ "" then
        let store := updateStore store target (receive_gossip_fn (store target) opp recv_resp)
        (store, [⟨src, target, opp, g⟩])
      else (store, [])
    | none => (store, [])
  else (store, [])

/-- `SimulationEngine._handle_gossip`: the candidate targets exclude both
pairing participants; then the two symmetric branches run in order. -/
def _handle_gossip (pool : List String) (a1 a2 : String)
    (coin1 coin2 : Bool) (pick1 pick2 : Nat)
    (gen1 recv1 gen2 recv2 : String)
    (store : String → AgentState) : (String → AgentState) × List GossipEvent :=
  let others := pool.filter fun a => decide (a ≠ a1 ∧ a ≠ a2)
  let res1 := gossipBranch others a1 a2 coin1 pick1 gen1 recv1 store
  let res2 := gossipBranch others a2 a1 coin2 pick2 gen2 recv2 res1.1
  (res2.1, res1.2 ++ res2.2)

/-! ### Concrete configurations used by individual claims -/

/-- Game proportions giving `prisoners_dilemma` weight 1 and every other
game type weight 0 (the catalog order of `config_loader.py`). -/
def pdOnlyProps : List (String × ℚ) :=
  [("prisoners_dilemma", 1), ("stag_hunt", 0), ("hawk_dove", 0), ("coordination", 0)]

/-- Uniform game proportions (the `config_loader.py` defaults). -/
def uniformProps : List (String × ℚ) :=
  [("prisoners_dilemma", 1/4), ("stag_hunt", 1/4), ("hawk_dove", 1/4), ("coordination", 1/4)]

/-- A configuration with `game_varies_across_pairings = false`. -/
def cfgVariesFalse : ExperimentConfig :=
  { avg_rounds := 2, rounds_fixed := true, total_pairings := 1, allow_gossip := false,
    memory_limit := 500, max_communication_rounds := 3, game_proportions := uniformProps,
    game_varies_across_pairings := false, allow_thinking := true }

/-- The same configuration with `game_varies_across_pairings = true`. -/
def cfgVariesTrue : ExperimentConfig :=
  { cfgVariesFalse with game_varies_across_pairings := true }

/-- A random stream whose first draw selects `prisoners_dilemma` and whose
second draw selects `coordination` under `uniformProps`. -/
def rsCE : Nat → ℚ :=
  fun i => if i = 0 then 0 else 9/10

/-- The claim-C2 configuration: `total_pairings = 1`, `avg_rounds = 2`
fixed, `game_varies_across_pairings = true`, prisoners-dilemma-only
weights; the parameters the claim leaves open stay free. -/
def cfgC2 (allow_gossip : Bool) (memory_limit max_communication_rounds : Nat)
    (allow_thinking : Bool) : ExperimentConfig :=
  { avg_rounds := 2, rounds_fixed := true, total_pairings := 1,
    allow_gossip := allow_gossip, memory_limit := memory_limit,
    max_communication_rounds := max_communication_rounds,
    game_proportions := pdOnlyProps, game_varies_across_pairings := true,
    allow_thinking := allow_thinking }

/-- All stored memories respect the agent's memory cap. -/
def memInv (a : AgentState) : Prop :=
  ∀ k v, alookup a.memories k = some v → pyLen v ≤ a.memory_limit

/-! ## Helper lemmas -/

/-- Bumping one `defaultdict` counter never lowers any counter. -/
theorem countGet_bumpCount_le (l : List (String × Nat)) (j k : String) :
    countGet l k ≤ countGet (bumpCount l j) k := by
  induction l with
  | nil => simp [countGet, bumpCount, alookup]
  | cons hd tl ih =>
    obtain ⟨k', n⟩ := hd
    by_cases hj : k' = j
    · subst hj
      by_cases hk : k' = k
      · subst hk
        simp [countGet, bumpCount, alookup]
      · simp [countGet, bumpCount, alookup, hk]
    · by_cases hk : k' = k
      · subst hk
        simp [countGet, bumpCount, alookup, hj]
      · simpa [countGet, bumpCount, alookup, hj, hk] using ih

/-! ## Claim C8 — Pareto-optimality test -/

/-- C8: for every game type in the closed set and all canonical move
pairs, `is_pareto_optimal` agrees with the spec's characterization (no
other outcome weakly dominates with at least one strict improvement);
in prisoners_dilemma, (defect, defect) fails the test and
(cooperate, cooperate) passes it. -/
theorem C8_pareto_correct :
    (∀ g ∈ gameTypes, ∀ m1 ∈ valid_moves g, ∀ m2 ∈ valid_moves g,
      is_pareto_optimal g m1 m2 = specParetoOptimal g m1 m2) ∧
    is_pareto_optimal "prisoners_dilemma" "defect" "defect" = false ∧
    is_pareto_optimal "prisoners_dilemma" "cooperate" "cooperate" = true := by
  refine ⟨?_, by decide, by decide⟩
  intro g hg m1 h1 m2 h2
  simp only [gameTypes, List.mem_cons, List.not_mem_nil, or_false] at hg
  rcases hg with rfl | rfl | rfl | rfl <;>
    simp [valid_moves] at h1 h2 <;>
    rcases h1 with rfl | rfl <;> rcases h2 with rfl | rfl <;> decide

/-- C8 witness: the quantified part applied at a concrete outcome. -/
theorem C8_witness :
    "stag_hunt" ∈ gameTypes ∧ "stag" ∈ valid_moves "stag_hunt" ∧
    "hare" ∈ valid_moves "stag_hunt" ∧
    is_pareto_optimal "stag_hunt" "stag" "hare" = specParetoOptimal "stag_hunt" "stag" "hare" :=
  ⟨by decide, by decide, by decide,
   C8_pareto_correct.1 "stag_hunt" (by decide) "stag" (by decide) "hare" (by decide)⟩

/-! ## Claim C9 — provider failures absorbed at the Agent boundary -/

/-- C9: when the provider errors, `_call_llm` returns the safe per-call-type
default — raw response "cooperate" for a move decision, the empty response
for every other call type — so the error never propagates out. -/
theorem C9_provider_error_defaults (call_type : String) :
    (call_type = "move_decision" → _call_llm false call_type .err = (none, "cooperate")) ∧
    (call_type ≠ "move_decision" → _call_llm false call_type .err = (none, "")) := by
  constructor <;> intro h <;> simp [_call_llm, h]

/-- C9 witness: the two branches at the actual call-type tags. -/
theorem C9_witness :
    _call_llm false "move_decision" .err = (none, "cooperate") ∧
    _call_llm false "gossip_generation" .err = (none, "") :=
  ⟨(C9_provider_error_defaults "move_decision").1 rfl,
   (C9_provider_error_defaults "gossip_generation").2 (by decide)⟩

/-! ## Claim C10 — gossip phase is a no-op with no third agent -/

/-- C10: when every agent in the pool is one of the two pairing
participants, `_handle_gossip` changes no agent state and emits no gossip
event (both candidate-target lists are empty, so neither branch runs). -/
theorem C10_gossip_noop (pool : List String) (a1 a2 : String)
    (coin1 coin2 : Bool) (pick1 pick2 : Nat) (gen1 recv1 gen2 recv2 : String)
    (store : String → AgentState)
    (hpool : ∀ a ∈ pool, a = a1 ∨ a = a2) :
    _handle_gossip pool a1 a2 coin1 coin2 pick1 pick2 gen1 recv1 gen2 recv2 store =
      (store, []) := by
  have hfilter : pool.filter (fun a => decide (a ≠ a1 ∧ a ≠ a2)) = [] := by
    rw [List.filter_eq_nil_iff]
    intro a ha
    rcases hpool a ha with rfl | rfl <;> simp
  simp only [_handle_gossip]
  rw [hfilter]
  simp [gossipBranch]

/-- C10 witness: a two-agent pool, concrete coins, picks and responses. -/
theorem C10_witness :
    _handle_gossip ["x", "y"] "x" "y" true true 0 1 "g1" "r1" "g2" "r2"
      (fun _ => initAgent 500) = ((fun _ => initAgent 500), []) :=
  C10_gossip_noop ["x", "y"] "x" "y" true true 0 1 "g1" "r1" "g2" "r2"
    (fun _ => initAgent 500) (by decide)

/-! ## Claim C4 — agent statistics monotonicity -/

/-- C4 counterexample: hawk_dove's mutual-hawk payoff is (-1, -1), and the
engine's payoff accumulation with a negative payoff strictly decreases
`total_payoff` — so not every stats field is monotonically
non-decreasing. -/
theorem C4_counterexample :
    calculate_payoffs "hawk_dove" "hawk" "hawk" = some (-1, -1) ∧
    (applyAgentOp (initAgent 500) (.add_payoff (-1))).stats.total_payoff <
      (initAgent 500).stats.total_payoff := by
  constructor
  · decide
  · decide

/-- C4 (amended): under every operation of a run, `total_games`,
`api_calls` and every `strategies_used` counter are non-decreasing and
never reset, and `total_payoff` is only ever changed by adding the round
payoff — which may be negative (hawk_dove), so `total_payoff` itself need
not be non-decreasing. -/
theorem C4_stats_monotone (a : AgentState) (op : AgentOp) :
    a.stats.total_games ≤ (applyAgentOp a op).stats.total_games ∧
    a.stats.api_calls ≤ (applyAgentOp a op).stats.api_calls ∧
    (∀ k, countGet a.stats.strategies_used k ≤
      countGet (applyAgentOp a op).stats.strategies_used k) ∧
    (∀ p, op = .add_payoff p →
      (applyAgentOp a op).stats.total_payoff = a.stats.total_payoff + p) ∧
    ((∀ p, op ≠ .add_payoff p) →
      (applyAgentOp a op).stats.total_payoff = a.stats.total_payoff) := by
  cases op with
  | communicate => simp [applyAgentOp, communicate_fn, incApi]
  | make_move response game_type mm =>
    simp [applyAgentOp, make_move_fn, incApi, countGet_bumpCount_le]
  | update_memory opponent_id response =>
    simp [applyAgentOp, update_memory_fn, incApi]
  | generate_gossip about_agent response =>
    by_cases h : (alookup a.memories about_agent).isNone <;>
      simp [applyAgentOp, generate_gossip_fn, incApi, h]
  | receive_gossip about_agent response =>
    by_cases h : response ≠ "" ∧ pyLen response > 10 <;>
      simp [applyAgentOp, receive_gossip_fn, incApi, h]
  | add_payoff payoff =>
    refine ⟨le_refl _, le_refl _, fun k => le_refl _, ?_, ?_⟩
    · intro p hp
      cases hp
      simp [applyAgentOp]
    · intro h
      exact absurd rfl (h payoff)

/-- C4 witness: the inner implications discharged at a concrete payoff
operation. -/
theorem C4_witness :
    (applyAgentOp (initAgent 500) (.add_payoff 5)).stats.total_payoff =
      (initAgent 500).stats.total_payoff + 5 :=
  (C4_stats_monotone (initAgent 500) (.add_payoff 5)).2.2.2.1 5 rfl

/-! ## Claim C5 — api_calls increments -/

/-- C5 counterexample: `generate_gossip` with no stored memory about the
subject returns before `_call_llm`, so `api_calls` is NOT incremented in
that case (the fresh agent's counter stays 0). -/
theorem C5_counterexample :
    (applyAgentOp (initAgent 500) (.generate_gossip "b" "resp")).stats.api_calls = 0 ∧
    (initAgent 500).stats.api_calls = 0 := by
  constructor
  · decide
  · decide

/-- C5 (amended): each of the five decision operations increments
`api_calls` by exactly one — in dry-run and live mode alike, the increment
precedes the mode branch of `_call_llm` — except `generate_gossip` with no
stored memory about the subject, which returns without any provider call
and leaves the counter unchanged. -/
theorem C5_api_calls (a : AgentState) (resp game_type : String)
    (mm : Option (List (String × String))) (opponent_id about_agent r2 r3 r4 : String) :
    (applyAgentOp a .communicate).stats.api_calls = a.stats.api_calls + 1 ∧
    (applyAgentOp a (.make_move resp game_type mm)).stats.api_calls = a.stats.api_calls + 1 ∧
    (applyAgentOp a (.update_memory opponent_id r2)).stats.api_calls = a.stats.api_calls + 1 ∧
    (applyAgentOp a (.receive_gossip about_agent r3)).stats.api_calls = a.stats.api_calls + 1 ∧
    ((alookup a.memories about_agent).isSome →
      (applyAgentOp a (.generate_gossip about_agent r4)).stats.api_calls =
        a.stats.api_calls + 1) ∧
    (alookup a.memories about_agent = none →
      (applyAgentOp a (.generate_gossip about_agent r4)).stats.api_calls =
        a.stats.api_calls) := by
  refine ⟨?_, ?_, ?_, ?_, ?_, ?_⟩
  · simp [applyAgentOp, communicate_fn, incApi]
  · simp [applyAgentOp, make_move_fn, incApi]
  · simp [applyAgentOp, update_memory_fn, incApi]
  · by_cases h : r3 ≠ "" ∧ pyLen r3 > 10 <;>
      simp [applyAgentOp, receive_gossip_fn, incApi, h]
  · intro h
    have : ¬ (alookup a.memories about_agent).isNone := by
      simp [Option.isNone_iff_eq_none]
      exact Option.isSome_iff_ne_none.mp h
    simp [applyAgentOp, generate_gossip_fn, incApi, this]
  · intro h
    simp [applyAgentOp, generate_gossip_fn, incApi, h]

/-- C5 witness: a memory-present gossip call increments the counter. -/
theorem C5_witness :
    (alookup (⟨[("b", "m")], 500, initStats⟩ : AgentState).memories "b").isSome ∧
    (applyAgentOp (⟨[("b", "m")], 500, initStats⟩ : AgentState)
      (.generate_gossip "b" "gossip")).stats.api_calls =
      (⟨[("b", "m")], 500, initStats⟩ : AgentState).stats.api_calls + 1 :=
  ⟨by decide,
   (C5_api_calls ⟨[("b", "m")], 500, initStats⟩ "" "" none "" "b" "" "" "gossip").2.2.2.2.1
     (by decide)⟩

/-! ## Claim C6 — canonical-move closure of `_extract_move` -/

/-- A successful scenario-mapping scan returns one of the mapping's
values. -/
theorem mappingFirstMatch_mem (mm : List (String × String)) (rl mv : String)
    (h : mappingFirstMatch mm rl = some mv) : mv ∈ mm.map Prod.snd := by
  induction mm with
  | nil => simp [mappingFirstMatch] at h
  | cons hd tl ih =>
    obtain ⟨opt, canon⟩ := hd
    simp only [mappingFirstMatch] at h
    split at h
    · cases h
      simp
    · simpa using Or.inr (ih h)

/-- A successful keyword match returns a canonical move of the game
type. -/
theorem keywordMove_mem (game_type rl mv : String)
    (h : keywordMove game_type rl = some mv) : mv ∈ valid_moves game_type := by
  unfold keywordMove at h
  split_ifs at h <;> simp_all [valid_moves]

/-- The safe default of a known game type is one of its canonical
moves. -/
theorem valid_defaults_mem (g : String) (hg : g ∈ gameTypes) :
    valid_defaults g ∈ valid_moves g := by
  simp only [gameTypes, List.mem_cons, List.not_mem_nil, or_false] at hg
  rcases hg with rfl | rfl | rfl | rfl <;> decide

/-- C6: for every game type in the closed set, every move mapping from the
built-in catalog for that game type (or no mapping), and every response
string, `_extract_move` returns a member of the game type's canonical move
set, and in particular never echoes a non-canonical response text. -/
theorem C6_extract_move_closure :
    ∀ g ∈ gameTypes, ∀ mm : Option (List (String × String)),
      (mm = none ∨ ∃ s ∈ scenariosCatalog g, mm = some s.move_mapping) →
      ∀ response : String,
        _extract_move response g mm ∈ valid_moves g ∧
        (response ∉ valid_moves g → _extract_move response g mm ≠ response) := by
  intro g hg mm hmm response
  have hvals : ∀ v ∈ (mm.getD []).map Prod.snd, v ∈ valid_moves g := by
    rcases hmm with rfl | ⟨s, hs, rfl⟩
    · simp
    · simp only [gameTypes, List.mem_cons, List.not_mem_nil, or_false] at hg
      rcases hg with rfl | rfl | rfl | rfl <;>
        simp [scenariosCatalog] at hs <;>
        rcases hs with rfl | rfl | rfl <;> decide
  have hmem : _extract_move response g mm ∈ valid_moves g := by
    unfold _extract_move
    rcases hmf : mappingFirstMatch (mm.getD []) (pyStrip (pyLower response)) with _ | mv
    · rcases hkw : keywordMove g (pyStrip (pyLower response)) with _ | mv2
      · simp only [hmf, hkw]
        exact valid_defaults_mem g hg
      · simp only [hmf, hkw]
        exact keywordMove_mem _ _ _ hkw
    · simp only [hmf]
      exact hvals _ (mappingFirstMatch_mem _ _ _ hmf)
  exact ⟨hmem, fun hresp heq => hresp (heq ▸ hmem)⟩

/-- C6 witness: a garbage response with a catalog mapping still yields a
canonical prisoners_dilemma move. -/
theorem C6_witness :
    "prisoners_dilemma" ∈ gameTypes ∧
    _extract_move "xyzzy!" "prisoners_dilemma"
      (some [("maintain prices", "cooperate"), ("cut prices", "defect")]) ∈
      valid_moves "prisoners_dilemma" :=
  ⟨by decide,
   (C6_extract_move_closure "prisoners_dilemma" (by decide)
      (some [("maintain prices", "cooperate"), ("cut prices", "defect")])
      (Or.inr ⟨⟨"Price Competition", ["maintain prices", "cut prices"],
        [("maintain prices", "cooperate"), ("cut prices", "defect")]⟩, by decide, rfl⟩)
      "xyzzy!").1⟩

/-! ## Claim C7 — memory cap invariant -/

/-- A lookup after a dictionary write sees either the written value or an
already-present one. -/
theorem alookup_setMem {l : List (String × String)} {k v k' v' : String}
    (h : alookup (setMem l k v) k' = some v') :
    v' = v ∨ alookup l k' = some v' := by
  induction l with
  | nil =>
    by_cases hk : k = k'
    · simp [setMem, alookup, hk] at h
      simp [h]
    · simp [setMem, alookup, hk] at h
  | cons hd tl ih =>
    obtain ⟨k0, v0⟩ := hd
    by_cases h0 : k0 = k
    · subst h0
      by_cases hk : k0 = k' <;> simp [setMem, alookup, hk] at h ⊢ <;> simp [h]
    · by_cases hk : k0 = k'
      · subst hk
        simp [setMem, alookup, h0] at h ⊢
        simp [h]
      · simp [setMem, alookup, h0, hk] at h ⊢
        exact ih h

/-- The cap-truncation step of the memory writes always lands at or below
the cap. -/
theorem truncate_len_le (r : String) (L : Nat) :
    pyLen (if pyLen r > L then pyTake r L else r) ≤ L := by
  split
  · simp [pyLen, pyTake]
  · omega

/-- One run operation preserves the memory-cap invariant. -/
theorem memInv_preserved (a : AgentState) (op : AgentOp) (h : memInv a) :
    memInv (applyAgentOp a op) := by
  cases op with
  | communicate => exact h
  | make_move response game_type mm => exact h
  | update_memory opponent_id response =>
    intro k v hkv
    rcases alookup_setMem hkv with rfl | hold
    · exact truncate_len_le response a.memory_limit
    · exact h k v hold
  | generate_gossip about_agent response =>
    simp only [applyAgentOp, generate_gossip_fn]
    split
    · exact h
    · exact h
  | receive_gossip about_agent response =>
    simp only [applyAgentOp, receive_gossip_fn]
    split
    · intro k v hkv
      rcases alookup_setMem hkv with rfl | hold
      · exact truncate_len_le response a.memory_limit
      · exact h k v hold
    · exact h
  | add_payoff payoff => exact h

/-- Whole-run preservation of the memory-cap invariant. -/
theorem applyAgentOps_memInv (ops : List AgentOp) :
    ∀ a : AgentState, memInv a → memInv (applyAgentOps a ops) := by
  induction ops with
  | nil => exact fun a h => h
  | cons op rest ih =>
    exact fun a h => ih (applyAgentOp a op) (memInv_preserved a op h)

/-- No run operation changes the agent's memory cap. -/
theorem applyAgentOp_limit (a : AgentState) (op : AgentOp) :
    (applyAgentOp a op).memory_limit = a.memory_limit := by
  cases op <;>
    simp only [applyAgentOp, communicate_fn, make_move_fn, update_memory_fn,
      generate_gossip_fn, receive_gossip_fn] <;>
    repeat' split <;> rfl

/-- The memory cap after a whole run is the configured one. -/
theorem applyAgentOps_limit (ops : List AgentOp) :
    ∀ a : AgentState, (applyAgentOps a ops).memory_limit = a.memory_limit := by
  induction ops with
  | nil => exact fun a => rfl
  | cons op rest ih =>
    exact fun a => (ih (applyAgentOp a op)).trans (applyAgentOp_limit a op)

/-- C7: starting from empty memories, after any sequence of run
operations every stored memory string has length at most the configured
`memory_limit`. -/
theorem C7_memory_cap (limit : Nat) (ops : List AgentOp) (k v : String)
    (h : alookup (applyAgentOps (initAgent limit) ops).memories k = some v) :
    pyLen v ≤ limit := by
  have hinv : memInv (applyAgentOps (initAgent limit) ops) :=
    applyAgentOps_memInv ops (initAgent limit)
      (fun k v hkv => by simp [initAgent, alookup] at hkv)
  have hl : (applyAgentOps (initAgent limit) ops).memory_limit = limit :=
    applyAgentOps_limit ops (initAgent limit)
  exact hl ▸ hinv k v h

/-- C7 witness: an over-long memory update is stored truncated to the
cap. -/
theorem C7_witness :
    alookup (applyAgentOps (initAgent 5)
      [.update_memory "b" "0123456789ABCDEF"]).memories "b" = some "01234" ∧
    pyLen "01234" ≤ 5 :=
  ⟨by decide,
   C7_memory_cap 5 [.update_memory "b" "0123456789ABCDEF"] "b" "01234" (by decide)⟩

/-! ## Claim C1 — game-type selection per pairing vs per round -/

/-- C1 counterexample: under a configuration with
`game_varies_across_pairings = false` and a random stream whose first two
draws select different games, the two rounds of one pairing get two
DIFFERENT game types (refuting "one game type is drawn once and used for
every round"); with the flag true the same stream yields the first draw
replicated over both rounds (refuting "drawn independently for each
round"). -/
theorem C1_counterexample :
    gamesForRounds cfgVariesFalse 2 rsCE = ["prisoners_dilemma", "coordination"] ∧
    gamesForRounds cfgVariesTrue 2 rsCE = ["prisoners_dilemma", "prisoners_dilemma"] ∧
    "prisoners_dilemma" ≠ "coordination" := by
  have h0 : _select_game_type uniformProps 0 = "prisoners_dilemma" := by
    norm_num [_select_game_type, uniformProps, cumSum, cumSumFrom, List.filter]
  have h1 : _select_game_type uniformProps (9/10) = "coordination" := by
    norm_num [_select_game_type, uniformProps, cumSum, cumSumFrom, List.filter]
  refine ⟨?_, ?_, by decide⟩
  · simp [gamesForRounds, cfgVariesFalse, rsCE, List.range_succ, h0, h1]
  · simp [gamesForRounds, cfgVariesTrue, cfgVariesFalse, rsCE, List.replicate, h0]

/-- C1 (amended): when `game_varies_across_pairings` is TRUE, one game
type is drawn once at pairing start (one weighted categorical draw) and
used for every round of the pairing; when the flag is FALSE, the game
type is drawn independently for each round via the weighted categorical
draw over the configured proportions. -/
theorem C1_game_selection (cfg : ExperimentConfig) (n : Nat) (rs : Nat → ℚ) :
    (gamesForRounds cfg n rs).length = n ∧
    (cfg.game_varies_across_pairings = true → ∀ i, i < n →
      (gamesForRounds cfg n rs)[i]? =
        some (_select_game_type cfg.game_proportions (rs 0))) ∧
    (cfg.game_varies_across_pairings = false → ∀ i, i < n →
      (gamesForRounds cfg n rs)[i]? =
        some (_select_game_type cfg.game_proportions (rs i))) := by
  refine ⟨?_, ?_, ?_⟩
  · cases hv : cfg.game_varies_across_pairings <;> simp [gamesForRounds, hv]
  · intro hv i hi
    simp [gamesForRounds, hv, List.getElem?_replicate, hi]
  · intro hv i hi
    simp [gamesForRounds, hv, List.getElem?_map, List.getElem?_range, hi]

/-- C1 witness: the amended per-pairing branch at round 0 of a concrete
configuration. -/
theorem C1_witness :
    cfgVariesTrue.game_varies_across_pairings = true ∧ 0 < 2 ∧
    (gamesForRounds cfgVariesTrue 2 rsCE)[0]? =
      some (_select_game_type cfgVariesTrue.game_proportions (rsCE 0)) :=
  ⟨rfl, by decide, (C1_game_selection cfgVariesTrue 2 rsCE).2.1 rfl 0 (by decide)⟩

/-! ## Claim C3 — private-thinking segments and the visible text -/

/-- A successful infix split accounts for all characters. -/
theorem splitAtInfix_lengths (pat : List Char) :
    ∀ s b a : List Char, splitAtInfix pat s = some (b, a) →
      b.length + pat.length + a.length = s.length := by
  intro s
  induction s with
  | nil =>
    intro b a h
    simp only [splitAtInfix] at h
    split at h
    · rename_i hpre
      have hle : pat.length ≤ 0 := by
        simpa using (List.isPrefixOf_iff_prefix.mp hpre).length_le
      have hpat : pat = [] := List.length_eq_zero.mp (Nat.le_zero.mp hle)
      cases h
      simp [hpat]
    · cases h
  | cons c cs ih =>
    intro b a h
    simp only [splitAtInfix] at h
    split at h
    · rename_i hpre
      have hle : pat.length ≤ (c :: cs).length :=
        (List.isPrefixOf_iff_prefix.mp hpre).length_le
      cases h
      simp only [List.length_drop, List.length_nil]
      omega
    · rcases hsplit : splitAtInfix pat cs with _ | ⟨b', a'⟩ <;> rw [hsplit] at h
      · cases h
      · simp only [Option.map_some'] at h
        obtain ⟨rfl, rfl⟩ : c :: b' = b ∧ a' = a := by simpa [eq_comm] using h
        have := ih b' a' hsplit
        simp only [List.length_cons]
        omega

/-- A found thinking segment accounts for all characters (the two tags
together are 21 characters). -/
theorem findThinkSeg_lengths (s pre content post : List Char)
    (h : findThinkSeg s = some (pre, content, post)) :
    pre.length + content.length + 21 + post.length = s.length := by
  unfold findThinkSeg at h
  rcases h1 : splitAtInfix openTag s with _ | ⟨pre', rest⟩ <;> rw [h1] at h <;> dsimp only at h
  · cases h
  · rcases h2 : splitAtInfix closeTag rest with _ | ⟨content', post'⟩ <;> rw [h2] at h <;>
      dsimp only at h
    · cases h
    · obtain ⟨rfl, rfl, rfl⟩ : pre' = pre ∧ content' = content ∧ post' = post := by
        simpa using h
      have e1 := splitAtInfix_lengths openTag s _ _ h1
      have e2 := splitAtInfix_lengths closeTag rest _ _ h2
      have ho : openTag.length = 10 := by decide
      have hc : closeTag.length = 11 := by decide
      omega

/-- Removing thinking segments never lengthens the text. -/
theorem removeThinkSegsF_length_le (fuel : Nat) :
    ∀ s : List Char, (removeThinkSegsF fuel s).length ≤ s.length := by
  induction fuel with
  | zero => intro s; simp [removeThinkSegsF]
  | succ m ih =>
    intro s
    simp only [removeThinkSegsF]
    rcases hf : findThinkSeg s with _ | ⟨pre, content, post⟩
    · simp
    · have hlen := findThinkSeg_lengths s pre content post hf
      have hrec := ih post
      simp only [List.length_append]
      omega

/-- When a thinking segment exists, removal strictly shortens the text. -/
theorem removeThinkSegs_length_lt (s : List Char)
    (x : List Char × List Char × List Char)
    (h : findThinkSeg s = some x) : (removeThinkSegs s).length < s.length := by
  obtain ⟨pre, content, post⟩ := x
  have hlen := findThinkSeg_lengths s pre content post h
  obtain ⟨m, hm⟩ : ∃ m, s.length = m + 1 := ⟨s.length - 1, by omega⟩
  unfold removeThinkSegs
  rw [hm]
  simp only [removeThinkSegsF, h, List.length_append]
  have := removeThinkSegsF_length_le m post
  omega

/-- Stripping never lengthens the text. -/
theorem pyStripList_length_le (l : List Char) : (pyStripList l).length ≤ l.length := by
  unfold pyStripList
  have h1 := (List.dropWhile_sublist (l := l) (p := Char.isWhitespace)).length_le
  have h2 := (List.dropWhile_sublist (l := (l.dropWhile Char.isWhitespace).reverse)
    (p := Char.isWhitespace)).length_le
  simp only [List.length_reverse] at *
  omega

/-- A character list shorter than a string is not that string. -/
theorem mk_ne_of_length_lt (l : List Char) (s : String)
    (h : l.length < s.toList.length) : String.mk l ≠ s := by
  intro he
  rw [← he] at h
  have : (String.mk l).toList = l := rfl
  rw [this] at h
  omega

/-- C3 counterexample: when the provider response is nothing but a
thinking segment, `_call_llm` falls back to delivering the (stripped)
thinking content itself as the visible text — here the visible response IS
the private thought "secret", so the thinking content is not always kept
out of the delivered text. -/
theorem C3_counterexample :
    _call_llm false "communication" (.ok "<thinking>secret</thinking>") =
      (some "secret", "secret") := by
  decide

/-- Stripping a `String.mk` is `String.mk` of the list strip. -/
theorem pyStrip_mk (l : List Char) : pyStrip (String.mk l) = String.mk (pyStripList l) :=
  rfl

/-- C3 (amended): for every provider response containing a thinking
segment, every Agent operation returns the first segment's content as the
separate thinking value, and the visible text is the response with all
thinking segments deleted (then stripped) — except when nothing visible
remains, in which case the stripped thinking content itself is delivered;
in every case the visible text differs from the raw response. -/
theorem C3_thinking_stripped (full : String) (pre t post : List Char)
    (h : findThinkSeg full.toList = some (pre, t, post)) (call_type : String) :
    (_call_llm false call_type (.ok full)).1 = some (String.mk t) ∧
    (pyStrip (String.mk (removeThinkSegs full.toList)) ≠ "" →
      (_call_llm false call_type (.ok full)).2 =
        pyStrip (String.mk (removeThinkSegs full.toList))) ∧
    (pyStrip (String.mk (removeThinkSegs full.toList)) = "" →
      (_call_llm false call_type (.ok full)).2 = pyStrip (String.mk t)) ∧
    (_call_llm false call_type (.ok full)).2 ≠ full := by
  have hseg := findThinkSeg_lengths full.toList pre t post h
  have hrem := removeThinkSegs_length_lt full.toList (pre, t, post) h
  have hcall : _call_llm false call_type (.ok full) = processLLMResponse full := by
    simp [_call_llm]
  by_cases hc : pyStrip (String.mk (removeThinkSegs full.toList)) = ""
  · have hval : _call_llm false call_type (.ok full) =
        (some (String.mk t), pyStrip (String.mk t)) := by
      rw [hcall]
      simp only [processLLMResponse, h, Option.map_some']
      rw [if_pos hc]
    refine ⟨by rw [hval], fun hne => absurd hc hne, fun _ => by rw [hval], ?_⟩
    rw [hval, pyStrip_mk]
    apply mk_ne_of_length_lt
    have := pyStripList_length_le t
    omega
  · have hval : _call_llm false call_type (.ok full) =
        (some (String.mk t), pyStrip (String.mk (removeThinkSegs full.toList))) := by
      rw [hcall]
      simp only [processLLMResponse, h, Option.map_some']
      rw [if_neg hc]
    refine ⟨by rw [hval], fun _ => by rw [hval], fun heq => absurd heq hc, ?_⟩
    rw [hval, pyStrip_mk]
    apply mk_ne_of_length_lt
    have := pyStripList_length_le (removeThinkSegs full.toList)
    omega

/-- C3 witness: a response with text around the segment has the segment
stripped and the thinking reported separately. -/
theorem C3_witness :
    (_call_llm false "communication" (.ok "ok<thinking>z</thinking>")).1 =
      some (String.mk ['z']) ∧
    (_call_llm false "communication" (.ok "ok<thinking>z</thinking>")).2 ≠
      "ok<thinking>z</thinking>" :=
  ⟨(C3_thinking_stripped "ok<thinking>z</thinking>" ['o', 'k'] ['z'] []
      (by decide) "communication").1,
   (C3_thinking_stripped "ok<thinking>z</thinking>" ['o', 'k'] ['z'] []
      (by decide) "communication").2.2.2⟩

/-! ## Claim C2 — dry-run end-to-end scenario -/

/-- With prisoners-dilemma-only weights, every draw below 1 selects
`prisoners_dilemma`. -/
theorem select_pdOnly (r : ℚ) (h : r < 1) :
    _select_game_type pdOnlyProps r = "prisoners_dilemma" := by
  have h1 : ¬ ((1 : ℚ) ≤ r) := not_le.mpr h
  simp [_select_game_type, pdOnlyProps, cumSum, cumSumFrom, List.filter, h1]

/-- Every dry-run prisoners-dilemma round: no catalog option text occurs
in the fixed dry-run response "cooperate", so the keyword scan fires and
both moves are `cooperate`, with payoffs (3, 3). -/
theorem dryRound_pd (k i : Nat) (h : i < 3) :
    ∃ name, dryRound k "prisoners_dilemma" i =
      { round := k + 1, game_type := "prisoners_dilemma", scenario := name,
        move1 := "cooperate", move2 := "cooperate", payoff1 := 3, payoff2 := 3 } := by
  interval_cases i
  · exact ⟨"Price Competition", rfl⟩
  · exact ⟨"R&D Information Sharing", rfl⟩
  · exact ⟨"Supplier Contract Negotiation", rfl⟩

/-- The single pairing of the claim-C2 run: two rounds, both of the one
game type selected by the first draw. -/
theorem dryRunPairing_C2 (ag th : Bool) (ml mc : Nat) (pd : Nat)
    (rs : Nat → ℚ) (σ : Nat → Nat) (hr : rs 0 < 1) :
    dryRunPairing (cfgC2 ag ml mc th) pd rs σ =
      [dryRound 0 "prisoners_dilemma" (σ 0), dryRound 1 "prisoners_dilemma" (σ 1)] := by
  have hsel := select_pdOnly (rs 0) hr
  simp [dryRunPairing, numRoundsFor, cfgC2, gamesForRounds, hsel,
    List.range_succ, List.replicate]

/-- Folding the engine counters over the two cooperate-cooperate
prisoners-dilemma rounds. -/
theorem engine_stats_C2 (n0 n1 : String) :
    ([[⟨1, "prisoners_dilemma", n0, "cooperate", "cooperate", 3, 3⟩,
       ⟨2, "prisoners_dilemma", n1, "cooperate", "cooperate", 3, 3⟩]] :
       List (List RoundRecord)).foldl
      (fun st rounds => rounds.foldl engineFoldRound st) initEngineStats =
      ⟨2, 4, 0, 4, 0⟩ := by
  have hl : pyLower "cooperate" = "cooperate" := by decide
  simp [engineFoldRound, _update_stats, hl, cooperative_moves, initEngineStats]

/-- C2: a dry run with `total_pairings = 1`, `avg_rounds = 2` fixed,
`game_varies_across_pairings = true` and prisoners-dilemma-only weights
(the other parameters free) produces exactly 2 rounds, both of game type
prisoners_dilemma, in which both agents' extracted moves are "cooperate"
and both payoffs are 3, and reports `cooperation_rate = 1`. -/
theorem C2_dry_run_end_to_end (ag th : Bool) (ml mc : Nat)
    (poisson : Nat → Nat) (rs : Nat → Nat → ℚ) (σ : Nat → Nat → Nat)
    (hr : rs 0 0 < 1) (hσ : ∀ i, σ 0 i < 3) :
    (dryRun (cfgC2 ag ml mc th) poisson rs σ).total_rounds = 2 ∧
    (dryRun (cfgC2 ag ml mc th) poisson rs σ).history.length = 1 ∧
    (∀ rounds ∈ (dryRun (cfgC2 ag ml mc th) poisson rs σ).history,
      rounds.length = 2 ∧
      ∀ r ∈ rounds, r.game_type = "prisoners_dilemma" ∧
        r.move1 = "cooperate" ∧ r.move2 = "cooperate" ∧
        r.payoff1 = 3 ∧ r.payoff2 = 3) ∧
    (dryRun (cfgC2 ag ml mc th) poisson rs σ).cooperation_rate = 1 := by
  obtain ⟨n0, he0⟩ := dryRound_pd 0 (σ 0 0) (hσ 0)
  obtain ⟨n1, he1⟩ := dryRound_pd 1 (σ 0 1) (hσ 1)
  have hpair := dryRunPairing_C2 ag th ml mc (poisson 0) (rs 0) (σ 0) hr
  rw [he0, he1] at hpair
  have hrun : dryRun (cfgC2 ag ml mc th) poisson rs σ =
      { total_pairings := 1, total_rounds := 2, cooperation_rate := 1, coop_ewan := 1,
        history := [[⟨1, "prisoners_dilemma", n0, "cooperate", "cooperate", 3, 3⟩,
                     ⟨2, "prisoners_dilemma", n1, "cooperate", "cooperate", 3, 3⟩]] } := by
    simp only [dryRun]
    rw [show (cfgC2 ag ml mc th).total_pairings = 1 from rfl]
    rw [show List.range 1 = [0] from rfl]
    simp only [List.map_cons, List.map_nil]
    rw [hpair, engine_stats_C2]
    norm_num [RunResult.mk.injEq]
  rw [hrun]
  refine ⟨rfl, rfl, ?_, by norm_num⟩
  intro rounds hrounds
  simp only [List.mem_singleton] at hrounds
  subst hrounds
  refine ⟨rfl, ?_⟩
  intro r hrr
  simp only [List.mem_cons, List.not_mem_nil, or_false] at hrr
  rcases hrr with rfl | rfl
  · exact ⟨rfl, rfl, rfl, rfl, rfl⟩
  · exact ⟨rfl, rfl, rfl, rfl, rfl⟩

/-- C2 witness: concrete random streams (always draw 0, always pick the
first scenario). -/
theorem C2_witness :
    (dryRun (cfgC2 true 500 3 true) (fun _ => 0) (fun _ _ => 0) (fun _ _ => 0)).total_rounds = 2 ∧
    (dryRun (cfgC2 true 500 3 true) (fun _ => 0) (fun _ _ => 0) (fun _ _ => 0)).cooperation_rate = 1 :=
  ⟨(C2_dry_run_end_to_end true true 500 3 (fun _ => 0) (fun _ _ => 0) (fun _ _ => 0)
      (by norm_num) (fun i => by norm_num)).1,
   (C2_dry_run_end_to_end true true 500 3 (fun _ => 0) (fun _ _ => 0) (fun _ _ => 0)
      (by norm_num) (fun i => by norm_num)).2.2.2⟩

end CoopEvo
